import Mathlib

/-!
# Verification of the Powerbox ETL data pipeline

A shallow embedding of `src/ETL/Scripts/data_pipeline.py` (a pandas-based
batch data-cleaning pipeline) together with proofs of the specification
claims about it.

The embedding models:
* a pandas `DataFrame` as a `Dataset`: named, dtyped columns and a list of
  rows whose cells are `Option Value` (`none` models a missing value, NaN);
* the cleaning stages `drop_high_missingness`, `remove_outliers`,
  `check_inconsistencies`, `fill_missing_values` as functions on `Dataset`,
  with pandas quantile/median semantics (linear interpolation, NaN skipped,
  comparisons against NaN false);
* the orchestration (`ingest_data`, `load_and_save_data`, `archive_file`,
  `data_pipeline`) as explicit state passing over a `World` record of the
  file-system/store side effects, with Python exceptions as `Except`.

Rational arithmetic is spelled out through `mkRat`-based helper operations
so that every definition evaluates on concrete inputs.
-/

namespace Powerbox

/-- Exact rational addition, written via `mkRat` so it evaluates. -/
def ratAdd (a b : Rat) : Rat := mkRat (a.num * b.den + b.num * a.den) (a.den * b.den)

/-- Exact rational subtraction. -/
def ratSub (a b : Rat) : Rat := mkRat (a.num * b.den - b.num * a.den) (a.den * b.den)

/-- Exact rational multiplication. -/
def ratMul (a b : Rat) : Rat := mkRat (a.num * b.num) (a.den * b.den)

/-- Exact rational division (`a / 0 = 0`, matching `Rat.div`). -/
def ratDiv (a b : Rat) : Rat := mkRat (a.num * b.num.sign * b.den) (a.den * b.num.natAbs)

/-- Embed a natural number as a rational. -/
def natToRat (n : Nat) : Rat := mkRat (Int.ofNat n) 1

/-- A cell value of a dataframe: a (real) number or a string. -/
inductive Value where
  | num (q : Rat)
  | str (s : String)
deriving DecidableEq

/-- A pandas column dtype, as used by `select_dtypes`/`fillna` dispatch. -/
inductive DType where
  | float64
  | int64
  | object
deriving DecidableEq

/-- A row of a dataframe; `none` is a missing value (NaN). -/
abbrev Row := List (Option Value)

/-- A pandas `DataFrame`: named, dtyped columns and an ordered list of rows. -/
structure Dataset where
  colNames : List String
  colTypes : List DType
  rows : List Row
deriving DecidableEq

instance {ε α : Type} [DecidableEq ε] [DecidableEq α] : DecidableEq (Except ε α) := fun x y =>
  match x, y with
  | .error e, .error f =>
    match decEq e f with
    | isTrue h => isTrue (congrArg Except.error h)
    | isFalse h => isFalse (fun hh => h (Except.error.inj hh))
  | .ok a, .ok b =>
    match decEq a b with
    | isTrue h => isTrue (congrArg Except.ok h)
    | isFalse h => isFalse (fun hh => h (Except.ok.inj hh))
  | .error _, .ok _ => isFalse (fun hh => Except.noConfusion hh)
  | .ok _, .error _ => isFalse (fun hh => Except.noConfusion hh)

/-- The cell of row `r` in column position `i` (missing when out of range). -/
def cellAt (r : Row) (i : Nat) : Option Value := r.getD i none

/-- The dtypes selected by `select_dtypes(include=['float64', 'int64'])`. -/
def isNumeric : DType → Bool
  | .float64 => true
  | .int64 => true
  | .object => false

/-- Position of a named column in the dataframe (`None` when absent). -/
def colIdx (df : Dataset) (name : String) : Option Nat :=
  df.colNames.findIdx? (fun n => n == name)

/-- Insert into a `≤`-sorted list of rationals. -/
def insertRat (a : Rat) : List Rat → List Rat
  | [] => [a]
  | b :: l => if a ≤ b then a :: b :: l else b :: insertRat a l

/-- Sort a list of rationals ascending (insertion sort). -/
def sortRats : List Rat → List Rat
  | [] => []
  | a :: l => insertRat a (sortRats l)

/-- `Series.quantile(q)` with pandas' default linear interpolation over the
present values `l`; `none` on an empty series (pandas NaN). -/
def quantileList (q : Rat) (l : List Rat) : Option Rat :=
  let s := sortRats l
  if s.isEmpty then none
  else
    let pos : Rat := ratMul q (ratSub (natToRat s.length) 1)
    let k : Nat := pos.floor.toNat
    let xk := s.getD k 0
    let xk1 := s.getD (k + 1) xk
    some (ratAdd xk (ratMul (ratSub pos (natToRat k)) (ratSub xk1 xk)))

/-- The present (non-NaN) numeric values of column `i` over `rows`. -/
def numColVals (rows : List Row) (i : Nat) : List Rat :=
  rows.filterMap (fun r =>
    match cellAt r i with
    | some (Value.num v) => some v
    | _ => none)

/-- The IQR outlier bounds `(Q1 - 1.5*IQR, Q3 + 1.5*IQR)` of column `i` over
the current `rows`; `none` when the column has no present numeric value
(pandas then yields NaN bounds, against which every comparison is false). -/
def boundsFor (rows : List Row) (i : Nat) : Option (Rat × Rat) :=
  match quantileList (mkRat 1 4) (numColVals rows i),
        quantileList (mkRat 3 4) (numColVals rows i) with
  | some q1, some q3 =>
    let iqr := ratSub q3 q1
    some (ratSub q1 (ratMul (mkRat 3 2) iqr), ratAdd q3 (ratMul (mkRat 3 2) iqr))
  | _, _ => none

/-- `(df[column] >= lower_bound) & (df[column] <= upper_bound)` for one cell:
false for a missing value, for a non-numeric cell, and when the bounds are
NaN (`none`). -/
def cellInBounds : Option (Rat × Rat) → Option Value → Bool
  | some (lb, ub), some (Value.num v) => decide (lb ≤ v) && decide (v ≤ ub)
  | _, _ => false

/-- One iteration of the `remove_outliers` loop: filter the current rows by
the IQR bounds of column `i`, the bounds being recomputed over the current
(already narrowed) rows. -/
def outlierStep (rows : List Row) (i : Nat) : List Row :=
  rows.filter (fun r => cellInBounds (boundsFor rows i) (cellAt r i))

/-- The positions of the numeric (`float64`/`int64`) columns, left to right:
the iteration order of `df.select_dtypes(include=['float64', 'int64']).columns`. -/
def numericIdx (df : Dataset) : List Nat :=
  (List.range df.colNames.length).filter (fun i => isNumeric (df.colTypes.getD i .object))

/-- Step 4 of the pipeline, `remove_outliers(df)`: for each numeric column in
order, drop the rows outside that column's IQR bounds, the bounds being
computed over the rows that survived the previous columns' filters. -/
def remove_outliers (df : Dataset) : Dataset :=
  { df with rows := (numericIdx df).foldl outlierStep df.rows }

/-- The rows surviving the outlier filters of the first `k` numeric columns. -/
def outlierInter (df : Dataset) (k : Nat) : List Row :=
  ((numericIdx df).take k).foldl outlierStep df.rows

/-- Fraction of missing values of column `i`: `df.isnull().mean()[i]`. -/
def missFrac (df : Dataset) (i : Nat) : Rat :=
  ratDiv (natToRat (df.rows.countP (fun r => (cellAt r i).isNone))) (natToRat df.rows.length)

/-- Whether column `i` is dropped by `drop_high_missingness`: pandas compares
`missing_percent > threshold`, which is false on an empty frame (the mean of
an empty column is NaN and `NaN > t` is false). -/
def colMissingDropped (df : Dataset) (t : Rat) (i : Nat) : Bool :=
  df.rows.length != 0 && decide (missFrac df i > t)

/-- The positions of the columns kept by `drop_high_missingness`. -/
def keptIdx (df : Dataset) (t : Rat) : List Nat :=
  (List.range df.colNames.length).filter (fun i => !colMissingDropped df t i)

/-- Step 3 of the pipeline, `drop_high_missingness(df, threshold=0.5)`:
drop every column whose missing-value fraction strictly exceeds `t`. -/
def drop_high_missingness (df : Dataset) (t : Rat) : Dataset :=
  { colNames := (keptIdx df t).map (fun i => df.colNames.getD i ""),
    colTypes := (keptIdx df t).map (fun i => df.colTypes.getD i .object),
    rows := df.rows.map (fun r => (keptIdx df t).map (fun i => r.getD i none)) }

/-- `df.drop_duplicates()`: keep the first occurrence of each distinct row. -/
def dedupFirstAux : List Row → List Row → List Row
  | _, [] => []
  | seen, a :: l => if a ∈ seen then dedupFirstAux seen l else a :: dedupFirstAux (a :: seen) l

/-- `df.drop_duplicates()` over a row list. -/
def dedupFirst (l : List Row) : List Row := dedupFirstAux [] l

/-- The hard-coded list of energy columns of `check_inconsistencies`. -/
def energy_columns : List String :=
  ["Solar Panels Energy Output (W)", "Power Consumption (kW)",
   "Energy Stored in Batteries (kWh)", "System Load (kW)",
   "Battery Capacity (Wh)", "Inverter Capacity (kW)"]

/-- `df[column] >= 0` for one cell: false for a missing or non-numeric value. -/
def nonnegCell : Option Value → Bool
  | some (Value.num v) => decide (0 ≤ v)
  | _ => false

/-- One iteration of the energy loop of `check_inconsistencies`: if the named
column is present, keep only the rows with a non-negative value in it;
otherwise the column is skipped. -/
def energyFilterStep (df : Dataset) (name : String) : Dataset :=
  match colIdx df name with
  | none => df
  | some i => { df with rows := df.rows.filter (fun r => nonnegCell (cellAt r i)) }

/-- Step 5 of the pipeline, `check_inconsistencies(df)`: drop exact duplicate
rows, then drop rows with a negative value in any present energy column. -/
def check_inconsistencies (df : Dataset) : Dataset :=
  energy_columns.foldl energyFilterStep { df with rows := dedupFirst df.rows }

/-- The Python exceptions raised (or caught) by the pipeline. `ValueError`
messages are distinguished by what the source formats into them; the schema
mismatch one carries the two reported column sets. -/
inductive PyErr where
  | unsupportedFormat
  | duplicateInput
  | schemaMismatch (missing extra : Finset String)
  | keyError
  | osError
deriving DecidableEq

/-- `df[column].median()`: pandas skips NaN and interpolates linearly;
`none` models the NaN median of an all-missing column. -/
def medianOfCol (df : Dataset) (i : Nat) : Option Rat :=
  quantileList (mkRat 1 2) (numColVals df.rows i)

/-- A total order on cell values mirroring the ascending sort used by
`Series.mode()` (numbers before strings). -/
def valueLe : Value → Value → Bool
  | .num a, .num b => decide (a ≤ b)
  | .num _, .str _ => true
  | .str _, .num _ => false
  | .str a, .str b => decide (a ≤ b)

/-- The present (non-NaN) values of column `i`. -/
def presentVals (df : Dataset) (i : Nat) : List Value :=
  df.rows.filterMap (fun r => cellAt r i)

/-- `df[column].mode()[0]`: the smallest among the most frequent present
values; `none` when the column has no present value (pandas `mode()` is then
empty and the `[0]` lookup raises). -/
def modeOfCol (df : Dataset) (i : Nat) : Option Value :=
  let vals := presentVals df i
  let maxCnt := (vals.map (fun v => vals.count v)).foldl max 0
  (vals.filter (fun v => vals.count v == maxCnt)).foldl
    (fun acc v =>
      match acc with
      | none => some v
      | some a => if valueLe v a then some v else some a)
    none

/-- `fillna` for one cell: a present value is kept, a missing one is replaced
by the fill value (which, when itself `none`, models `fillna(NaN)` leaving
the cell missing). -/
def fillCell (fv : Option Value) (c : Option Value) : Option Value :=
  match c with
  | some v => some v
  | none => fv

/-- Overwrite column `i` of every row with `fillna`-filled cells. -/
def fillRowsAt (rows : List Row) (i : Nat) (fv : Option Value) : List Row :=
  rows.map (fun r => r.set i (fillCell fv (cellAt r i)))

/-- One iteration of the `fill_missing_values` loop over column `i`: a
numeric column is filled with its median (a no-op when the median is NaN); a
categorical column is filled with `mode()[0]`, which raises a `KeyError`
when the column has no present value. -/
def fill_step (df : Dataset) (i : Nat) : Except PyErr Dataset :=
  if isNumeric (df.colTypes.getD i .object) then
    .ok { df with rows := fillRowsAt df.rows i ((medianOfCol df i).map Value.num) }
  else
    match modeOfCol df i with
    | none => .error PyErr.keyError
    | some m => .ok { df with rows := fillRowsAt df.rows i (some m) }

/-- The `for column in df.columns` loop of `fill_missing_values`, as a
recursion over the remaining column positions. -/
def fillFrom (df : Dataset) : List Nat → Except PyErr Dataset
  | [] => .ok df
  | i :: l =>
    match fill_step df i with
    | .error e => .error e
    | .ok d => fillFrom d l

/-- Step 6 of the pipeline, `fill_missing_values(df)`: impute every column,
median for numeric and mode for categorical. -/
def fill_missing_values (df : Dataset) : Except PyErr Dataset :=
  fillFrom df (List.range df.colNames.length)

/-- Modelled from the spec: the checksum accumulator of Python's standard
library `hashlib.md5`, which is not part of `src/`. The spec only requires a
digest obtained by folding the file's fixed-size chunks into an accumulator,
so the fold is a concrete deterministic function of the fed bytes. -/
def md5update (acc : Nat) (chunk : List Nat) : Nat :=
  chunk.foldl (fun a b => (a * 257 + b + 1) % (2 ^ 128)) acc

/-- Split a byte list into the successive 4096-byte chunks produced by
`iter(lambda: f.read(4096), b"")` (fuel-indexed to stay structural). -/
def chunksAux : Nat → List Nat → List (List Nat)
  | 0, _ => []
  | _, [] => []
  | fuel + 1, b :: l => ((b :: l).take 4096) :: chunksAux fuel ((b :: l).drop 4096)

/-- All 4096-byte chunks of a byte list. -/
def chunks4096 (l : List Nat) : List (List Nat) := chunksAux l.length l

/-- The digest of a file content: the chunks folded into the accumulator. -/
def md5digest (content : List Nat) : Nat := (chunks4096 content).foldl md5update 0

/-- A file system, mapping a path to the byte content of the file there. -/
def FileSys : Type := String → Option (List Nat)

/-- `md5_hash(file_path)`: reads the file in 4096-byte chunks and folds them
into the digest; `None` when the file does not exist (`FileNotFoundError`
is caught and printed). -/
def md5_hash (fs : FileSys) (path : String) : Option Nat :=
  match fs path with
  | none => none
  | some content => some (md5digest content)

/-- `check_if_file_processed(directory_path, file_path)`: true exactly when
some file in the archive directory has the same digest as the target file
(the archive is abstracted to the list of its files' byte contents). -/
def check_if_file_processed (archiveFiles : List (List Nat)) (target : List Nat) : Bool :=
  archiveFiles.any (fun f => md5digest f == md5digest target)

/-- Step 2 of the pipeline, `validate_dataframe_columns(df, schema)`: compare
the actual column names against the expected ones and raise a `ValueError`
carrying the missing and extra sets when either is non-empty. -/
def validate_dataframe_columns (expected actual : List String) : Except PyErr Unit :=
  let missing := expected.toFinset \ actual.toFinset
  let extra := actual.toFinset \ expected.toFinset
  if missing ≠ ∅ ∨ extra ≠ ∅ then
    .error (PyErr.schemaMismatch missing extra)
  else
    .ok ()

/-- The observable file-system and store side effects of one pipeline run. -/
structure World where
  renamed : Bool
  storeWritten : Bool
  snapshotWritten : Bool
  archived : Bool
deriving DecidableEq

/-- The world before the run: nothing renamed, written or archived. -/
def initWorld : World := ⟨false, false, false, false⟩

/-- The inputs of one pipeline run, abstracting the external collaborators:
the input file (its extension validity and byte content), the archive
directory contents, the parsed dataframe, the schema header, and whether the
archival file operations fail. -/
structure PipeInput where
  extOk : Bool
  fileBytes : List Nat
  archiveFiles : List (List Nat)
  df : Dataset
  schemaCols : List String
  archSrcExists : Bool
  archMkdirFails : Bool
  archMoveFails : Bool

/-- Step 1 of the pipeline, `ingest_data(file_path, archive_dir)`: for a
`.csv`/`.xlsx` file, first rename it with the date tag (a mutation), then
check the archive for the same content and raise `ValueError` ("already
processed") on a match; otherwise read the dataframe. An unsupported
extension raises before any mutation. -/
def ingest_data (inp : PipeInput) (w : World) : World × Except PyErr Dataset :=
  if inp.extOk then
    let w2 : World := { w with renamed := true }
    if check_if_file_processed inp.archiveFiles inp.fileBytes then
      (w2, .error PyErr.duplicateInput)
    else
      (w2, .ok inp.df)
  else
    (w, .error PyErr.unsupportedFormat)

/-- Step 7 of the pipeline, `load_and_save_data(...)`: append the cleaned
dataframe to the SQLite store and overwrite the CSV snapshot. -/
def load_and_save_data (w : World) : World :=
  { w with storeWritten := true, snapshotWritten := true }

/-- The body of the `try` block of `archive_file`: return `None` when the
source file is missing, raise when `os.makedirs` or `shutil.move` fails,
otherwise move the file into the archive. -/
def archiveBody (srcExists mkdirFails moveFails : Bool) (w : World) :
    World × Except PyErr (Option Unit) :=
  if !srcExists then
    (w, .ok none)
  else if mkdirFails then
    (w, .error PyErr.osError)
  else if moveFails then
    (w, .error PyErr.osError)
  else
    ({ w with archived := true }, .ok none)

/-- Step 8 of the pipeline, `archive_file(file_path, archive_dir)`: the body
runs under `try`, and `except Exception` turns any failure into a printed
message and a `None` return. -/
def archive_file (srcExists mkdirFails moveFails : Bool) (w : World) :
    World × Option Unit :=
  match archiveBody srcExists mkdirFails moveFails w with
  | (w2, .ok r) => (w2, r)
  | (w2, .error _) => (w2, none)

/-- `data_pipeline(...)`: ingest, validate, clean in four stages, persist,
archive; every uncaught exception aborts the run at its stage. -/
def data_pipeline (inp : PipeInput) (w : World) : World × Except PyErr Unit :=
  match ingest_data inp w with
  | (w1, .error e) => (w1, .error e)
  | (w1, .ok df) =>
    match validate_dataframe_columns inp.schemaCols df.colNames with
    | .error e => (w1, .error e)
    | .ok _ =>
      let df1 := drop_high_missingness df (mkRat 1 2)
      let df2 := remove_outliers df1
      let df3 := check_inconsistencies df2
      match fill_missing_values df3 with
      | .error e => (w1, .error e)
      | .ok _ =>
        let w2 := load_and_save_data w1
        let w3 := (archive_file inp.archSrcExists inp.archMkdirFails inp.archMoveFails w2).1
        (w3, .ok ())

/-! Concrete data used to instantiate the universally quantified theorems. -/

/-- The dataset of the specification's worked example: one numeric column
`X` with values `[1,...,9,100]`. -/
def exDfSpec : Dataset :=
  { colNames := ["X"], colTypes := [DType.float64],
    rows := [1, 2, 3, 4, 5, 6, 7, 8, 9, 100].map (fun v => [some (Value.num v)]) }

/-- Two columns, the second of which misses 100% of its values. -/
def exDf4 : Dataset :=
  { colNames := ["A", "B"], colTypes := [DType.float64, DType.float64],
    rows := [[some (Value.num 1), none], [some (Value.num 2), none]] }

/-- An energy column with a duplicate row and a negative value. -/
def exDf6 : Dataset :=
  { colNames := ["Power Consumption (kW)"], colTypes := [DType.float64],
    rows := [[some (Value.num 5)], [some (Value.num (-3))], [some (Value.num 5)]] }

/-- A numeric column with no present value at all. -/
def exDf3 : Dataset :=
  { colNames := ["X"], colTypes := [DType.float64], rows := [[none], [none]] }

/-- A categorical column with no present value at all. -/
def exDf3b : Dataset :=
  { colNames := ["Y"], colTypes := [DType.object], rows := [[none]] }

/-- A numeric column with one missing value (median fill applies). -/
def exDfFill : Dataset :=
  { colNames := ["X"], colTypes := [DType.float64],
    rows := [[some (Value.num 1)], [none], [some (Value.num 3)]] }

/-- A run whose input bytes are already present in the archive. -/
def inpDup : PipeInput :=
  { extOk := true, fileBytes := [7], archiveFiles := [[7]],
    df := exDfSpec, schemaCols := ["X"],
    archSrcExists := true, archMkdirFails := false, archMoveFails := false }

/-- A file system holding the same bytes under two different paths. -/
def exFs : FileSys := fun p =>
  if p = "input.csv" then some [1, 2, 3]
  else if p = "archive/input.csv" then some [1, 2, 3]
  else none

/-! ## Helper lemmas -/

theorem mem_of_mem_outlierFold {r : Row} : ∀ (l : List Nat) (rows : List Row),
    r ∈ List.foldl outlierStep rows l → r ∈ rows
  | [], _, h => h
  | i :: l, rows, h => List.mem_of_mem_filter (mem_of_mem_outlierFold l (outlierStep rows i) h)

theorem remove_outliers_mem (df : Dataset) (k : Nat) (hk : k < (numericIdx df).length)
    {r : Row} (h : r ∈ (remove_outliers df).rows) :
    r ∈ outlierStep (outlierInter df k) ((numericIdx df)[k]) := by
  have htake : (numericIdx df).take (k + 1)
      = (numericIdx df).take k ++ [(numericIdx df)[k]] := by
    rw [List.take_succ, List.getElem?_eq_getElem hk]
    rfl
  have hrows : (remove_outliers df).rows =
      ((numericIdx df).drop (k + 1)).foldl outlierStep
        (outlierStep (outlierInter df k) ((numericIdx df)[k])) := by
    conv_lhs =>
      rw [show (remove_outliers df).rows = (numericIdx df).foldl outlierStep df.rows from rfl,
        show numericIdx df
          = (numericIdx df).take (k + 1) ++ (numericIdx df).drop (k + 1) from
          (List.take_append_drop _ _).symm]
    rw [List.foldl_append, htake, List.foldl_append]
    rfl
  rw [hrows] at h
  exact mem_of_mem_outlierFold _ _ h

theorem cellInBounds_eq {b : Option (Rat × Rat)} {c : Option Value}
    (h : cellInBounds b c = true) :
    ∃ lb ub v, b = some (lb, ub) ∧ c = some (Value.num v) ∧ lb ≤ v ∧ v ≤ ub := by
  match b, c with
  | some (lb, ub), some (Value.num v) =>
    have h2 := (Bool.and_eq_true _ _).mp h
    exact ⟨lb, ub, v, rfl, rfl, of_decide_eq_true h2.1, of_decide_eq_true h2.2⟩
  | none, _ => exact absurd h (by simp [cellInBounds])
  | some (lb, ub), none => exact absurd h (by simp [cellInBounds])
  | some (lb, ub), some (Value.str s) => exact absurd h (by simp [cellInBounds])

/-! ## Claim theorems -/

/-- C1: after `remove_outliers`, for each numeric column (taken in the
deterministic left-to-right order) every remaining row holds a value within
`[Q1 - 1.5*IQR, Q3 + 1.5*IQR]`, where the bounds are computed over the rows
that survived the filters of the previously processed columns
(`outlierInter df k`), not over the original dataset. -/
theorem remove_outliers_sequential_bounds (df : Dataset) (k : Nat)
    (hk : k < (numericIdx df).length) :
    ∀ r ∈ (remove_outliers df).rows,
      ∃ lb ub v, boundsFor (outlierInter df k) ((numericIdx df)[k]) = some (lb, ub)
        ∧ cellAt r ((numericIdx df)[k]) = some (Value.num v) ∧ lb ≤ v ∧ v ≤ ub := by
  intro r hr
  have h1 : r ∈ List.filter
      (fun s => cellInBounds (boundsFor (outlierInter df k) ((numericIdx df)[k]))
        (cellAt s ((numericIdx df)[k])))
      (outlierInter df k) :=
    remove_outliers_mem df k hk hr
  have h2 : cellInBounds (boundsFor (outlierInter df k) ((numericIdx df)[k]))
      (cellAt r ((numericIdx df)[k])) = true :=
    @List.of_mem_filter Row
      (fun s => cellInBounds (boundsFor (outlierInter df k) ((numericIdx df)[k]))
        (cellAt s ((numericIdx df)[k]))) r (outlierInter df k) h1
  exact cellInBounds_eq h2

/-- Witness for C1: the specification's worked example, column `X` with
values `[1,...,9,100]`, first numeric column. -/
theorem remove_outliers_sequential_bounds_witness :
    ∃ lb ub v, boundsFor (outlierInter exDfSpec 0) 0 = some (lb, ub)
      ∧ cellAt [some (Value.num 1)] 0 = some (Value.num v) ∧ lb ≤ v ∧ v ≤ ub :=
  remove_outliers_sequential_bounds exDfSpec 0 (by with_unfolding_all decide)
    [some (Value.num 1)] (by with_unfolding_all decide)

/-- C9: `remove_outliers` drops every row with a missing value in any
numeric column (the bound comparison is false for NaN), so afterwards every
remaining row holds a present numeric value in every numeric column. -/
theorem remove_outliers_no_missing_numeric (df : Dataset) :
    ∀ r ∈ (remove_outliers df).rows, ∀ i ∈ numericIdx df,
      ∃ v, cellAt r i = some (Value.num v) := by
  intro r hr i hi
  obtain ⟨⟨k, hk⟩, hget⟩ := List.mem_iff_get.mp hi
  have h1 : r ∈ List.filter
      (fun s => cellInBounds (boundsFor (outlierInter df k) ((numericIdx df)[k]))
        (cellAt s ((numericIdx df)[k])))
      (outlierInter df k) :=
    remove_outliers_mem df k hk hr
  have h2 : cellInBounds (boundsFor (outlierInter df k) ((numericIdx df)[k]))
      (cellAt r ((numericIdx df)[k])) = true :=
    @List.of_mem_filter Row
      (fun s => cellInBounds (boundsFor (outlierInter df k) ((numericIdx df)[k]))
        (cellAt s ((numericIdx df)[k]))) r (outlierInter df k) h1
  obtain ⟨lb, ub, v, _, hc, _, _⟩ := cellInBounds_eq h2
  refine ⟨v, ?_⟩
  rw [show i = (numericIdx df)[k] from by rw [← hget]; rfl]
  exact hc

/-- Witness for C9: in the worked example the surviving row `[1]` holds a
present value in the numeric column `0`. -/
theorem remove_outliers_no_missing_numeric_witness :
    ∃ v, cellAt [some (Value.num 1)] 0 = some (Value.num v) :=
  remove_outliers_no_missing_numeric exDfSpec [some (Value.num 1)]
    (by with_unfolding_all decide) 0 (by with_unfolding_all decide)

theorem missFrac_nil (df : Dataset) (i : Nat) (h : df.rows = []) : missFrac df i = 0 := by
  unfold missFrac
  rw [h]
  simp only [List.countP_nil, List.length_nil]
  with_unfolding_all decide

theorem colMissingDropped_false_iff (df : Dataset) (t : Rat) (i : Nat) (ht : 0 ≤ t) :
    colMissingDropped df t i = false ↔ missFrac df i ≤ t := by
  unfold colMissingDropped
  rcases eq_or_ne df.rows.length 0 with hlen | hlen
  · have hnil : df.rows = [] := List.length_eq_zero.mp hlen
    rw [missFrac_nil df i hnil, hlen]
    exact ⟨fun _ => ht, fun _ => rfl⟩
  · have hb : (df.rows.length != 0) = true := by simpa using hlen
    rw [hb, Bool.true_and, decide_eq_false_iff_not, not_lt]

theorem getD_eq_getElem_of_lt {α : Type} (l : List α) (d : α) {i : Nat} (h : i < l.length) :
    l.getD i d = l[i] := by
  rw [List.getD_eq_getElem?_getD, List.getElem?_eq_getElem h]
  rfl

/-- C4: `drop_high_missingness` keeps a column exactly when its fraction of
missing values is at most the threshold (so a column strictly above `t` is
dropped and one at exactly `t` is retained), and afterwards no remaining
column's missing-value fraction exceeds `t`. -/
theorem drop_high_missingness_spec (df : Dataset) (t : Rat)
    (ht : 0 ≤ t) (hnd : df.colNames.Nodup) :
    (∀ i, (hi : i < df.colNames.length) →
      (df.colNames[i] ∈ (drop_high_missingness df t).colNames ↔ missFrac df i ≤ t)) ∧
    (∀ j, (hj : j < (drop_high_missingness df t).colNames.length) →
      missFrac (drop_high_missingness df t) j ≤ t) := by
  constructor
  · intro i hi
    constructor
    · intro hmem
      have hmem2 : df.colNames[i] ∈ (keptIdx df t).map (fun n => df.colNames.getD n "") := hmem
      obtain ⟨j, hjk, hj⟩ := List.mem_map.mp hmem2
      obtain ⟨hjr, hjf⟩ := List.mem_filter.mp hjk
      have hjn : j < df.colNames.length := List.mem_range.mp hjr
      rw [getD_eq_getElem_of_lt df.colNames "" hjn] at hj
      have hfin : (⟨j, hjn⟩ : Fin df.colNames.length) = ⟨i, hi⟩ := by
        apply (List.Nodup.get_inj_iff hnd).mp
        simpa [List.get_eq_getElem] using hj
      have hji : j = i := congrArg Fin.val hfin
      subst hji
      have hcd : colMissingDropped df t j = false := by simpa using hjf
      exact (colMissingDropped_false_iff df t j ht).mp hcd
    · intro hle
      have hcd : colMissingDropped df t i = false :=
        (colMissingDropped_false_iff df t i ht).mpr hle
      have hik : i ∈ keptIdx df t :=
        List.mem_filter.mpr ⟨List.mem_range.mpr hi, by simp [hcd]⟩
      rw [← getD_eq_getElem_of_lt df.colNames "" hi]
      exact List.mem_map.mpr ⟨i, hik, rfl⟩
  · intro j hj
    have hjlen : j < (keptIdx df t).length := by
      simpa [drop_high_missingness] using hj
    have hKmem : (keptIdx df t)[j] ∈ keptIdx df t := (keptIdx df t).getElem_mem hjlen
    obtain ⟨hKr, hKf⟩ := List.mem_filter.mp hKmem
    have hcd : colMissingDropped df t ((keptIdx df t)[j]) = false := by simpa using hKf
    have hcnt : (drop_high_missingness df t).rows.countP (fun r => (cellAt r j).isNone)
        = df.rows.countP (fun r => (cellAt r ((keptIdx df t)[j])).isNone) := by
      show (df.rows.map fun r => (keptIdx df t).map fun n => r.getD n none).countP _ = _
      rw [List.countP_map]
      congr 1
      funext r
      show (cellAt ((keptIdx df t).map fun n => r.getD n none) j).isNone
          = (cellAt r ((keptIdx df t)[j])).isNone
      unfold cellAt
      conv_lhs =>
        rw [List.getD_eq_getElem?_getD, List.getElem?_map, List.getElem?_eq_getElem hjlen]
      simp
    have hrlen : (drop_high_missingness df t).rows.length = df.rows.length := by
      show (df.rows.map _).length = _
      rw [List.length_map]
    have hfrac : missFrac (drop_high_missingness df t) j
        = missFrac df ((keptIdx df t)[j]) := by
      unfold missFrac
      rw [hcnt, hrlen]
    rw [hfrac]
    exact (colMissingDropped_false_iff df t ((keptIdx df t)[j]) ht).mp hcd

/-- Witness for C4: two columns, `A` fully present and `B` fully missing,
at the default threshold `0.5`. -/
theorem drop_high_missingness_spec_witness :
    ("A" ∈ (drop_high_missingness exDf4 (mkRat 1 2)).colNames ↔
      missFrac exDf4 0 ≤ mkRat 1 2) ∧
    missFrac (drop_high_missingness exDf4 (mkRat 1 2)) 0 ≤ mkRat 1 2 :=
  ⟨(drop_high_missingness_spec exDf4 (mkRat 1 2) (by with_unfolding_all decide)
      (by with_unfolding_all decide)).1 0 (by with_unfolding_all decide),
   (drop_high_missingness_spec exDf4 (mkRat 1 2) (by with_unfolding_all decide)
      (by with_unfolding_all decide)).2 0 (by with_unfolding_all decide)⟩

theorem dedupFirstAux_spec : ∀ (l seen : List Row),
    (dedupFirstAux seen l).Nodup ∧ ∀ a ∈ dedupFirstAux seen l, a ∉ seen
  | [], seen => ⟨List.nodup_nil, by intro a ha; simp [dedupFirstAux] at ha⟩
  | a :: l, seen => by
    unfold dedupFirstAux
    by_cases hmem : a ∈ seen
    · simp only [if_pos hmem]
      exact dedupFirstAux_spec l seen
    · simp only [if_neg hmem]
      obtain ⟨ih1, ih2⟩ := dedupFirstAux_spec l (a :: seen)
      refine ⟨List.nodup_cons.mpr ⟨fun hcon => ih2 a hcon (List.mem_cons_self a seen), ih1⟩, ?_⟩
      intro b hb hbs
      rcases List.mem_cons.mp hb with hb1 | hb1
      · exact hmem (hb1 ▸ hbs)
      · exact ih2 b hb1 (List.mem_cons.mpr (Or.inr hbs))

theorem energyFilterStep_colNames (d : Dataset) (name : String) :
    (energyFilterStep d name).colNames = d.colNames := by
  unfold energyFilterStep
  cases colIdx d name <;> rfl

theorem energyFold_colNames : ∀ (l : List String) (d : Dataset),
    (l.foldl energyFilterStep d).colNames = d.colNames
  | [], _ => rfl
  | name :: l, d =>
    (energyFold_colNames l (energyFilterStep d name)).trans (energyFilterStep_colNames d name)

theorem colIdx_congr {d d2 : Dataset} (h : d2.colNames = d.colNames) (name : String) :
    colIdx d2 name = colIdx d name := by
  unfold colIdx
  rw [h]

theorem mem_of_mem_energyFold {r : Row} : ∀ (l : List String) (d : Dataset),
    r ∈ (l.foldl energyFilterStep d).rows → r ∈ d.rows
  | [], _, h => h
  | name :: l, d, h => by
    have h1 : r ∈ (energyFilterStep d name).rows :=
      mem_of_mem_energyFold l (energyFilterStep d name) h
    unfold energyFilterStep at h1
    cases hcol : colIdx d name with
    | none => rw [hcol] at h1; exact h1
    | some i => rw [hcol] at h1; exact List.mem_of_mem_filter h1

theorem energyFilterStep_nodup {d : Dataset} (h : d.rows.Nodup) (name : String) :
    (energyFilterStep d name).rows.Nodup := by
  unfold energyFilterStep
  cases colIdx d name with
  | none => exact h
  | some i => exact h.filter _

theorem energyFold_nodup : ∀ (l : List String) (d : Dataset),
    d.rows.Nodup → (l.foldl energyFilterStep d).rows.Nodup
  | [], _, h => h
  | name :: l, d, h => energyFold_nodup l (energyFilterStep d name) (energyFilterStep_nodup h name)

theorem energyFold_nonneg : ∀ (l : List String) (d : Dataset) (name : String),
    name ∈ l → ∀ i : Nat, colIdx d name = some i →
    ∀ r ∈ (l.foldl energyFilterStep d).rows, nonnegCell (cellAt r i) = true
  | [], _, _, hn, _, _, _, _ => absurd hn (List.not_mem_nil _)
  | n0 :: l, d, name, hn, i, hi, r, hr => by
    rcases List.mem_cons.mp hn with heq | htl
    · subst heq
      have hr1 : r ∈ (energyFilterStep d name).rows :=
        mem_of_mem_energyFold l (energyFilterStep d name) hr
      unfold energyFilterStep at hr1
      rw [hi] at hr1
      exact @List.of_mem_filter Row (fun s => nonnegCell (cellAt s i)) r d.rows hr1
    · have hi2 : colIdx (energyFilterStep d n0) name = some i := by
        rw [colIdx_congr (energyFilterStep_colNames d n0) name]
        exact hi
      exact energyFold_nonneg l (energyFilterStep d n0) name htl i hi2 r hr

/-- C6: after `check_inconsistencies` no two remaining rows are identical
across all columns, and every remaining row's value in a present energy
column is non-negative (missing values in such a column are dropped too);
absent energy columns are skipped, the function being total. -/
theorem check_inconsistencies_spec (df : Dataset) :
    (check_inconsistencies df).rows.Nodup ∧
    ∀ name ∈ energy_columns, ∀ i : Nat, colIdx df name = some i →
      ∀ r ∈ (check_inconsistencies df).rows, ∀ v : Rat,
        cellAt r i = some (Value.num v) → 0 ≤ v := by
  constructor
  · exact energyFold_nodup energy_columns { df with rows := dedupFirst df.rows }
      (dedupFirstAux_spec df.rows []).1
  · intro name hn i hi r hr v hv
    have hi2 : colIdx { df with rows := dedupFirst df.rows } name = some i := hi
    have h := energyFold_nonneg energy_columns { df with rows := dedupFirst df.rows }
      name hn i hi2 r hr
    rw [hv] at h
    exact of_decide_eq_true h

/-- Witness for C6: a dataset with a duplicated row and a negative energy
value; the surviving row `[5]` is unique and non-negative. -/
theorem check_inconsistencies_spec_witness :
    (check_inconsistencies exDf6).rows.Nodup ∧ (0 : Rat) ≤ 5 :=
  ⟨(check_inconsistencies_spec exDf6).1,
   (check_inconsistencies_spec exDf6).2 "Power Consumption (kW)"
     (by with_unfolding_all decide) 0 (by with_unfolding_all decide)
     [some (Value.num 5)] (by with_unfolding_all decide) 5 rfl⟩

theorem fill_step_colNames {df d : Dataset} {i : Nat} (h : fill_step df i = Except.ok d) :
    d.colNames = df.colNames := by
  unfold fill_step at h
  by_cases hn : isNumeric (df.colTypes.getD i DType.object) = true
  · rw [if_pos hn] at h
    cases h
    rfl
  · rw [if_neg hn] at h
    cases hm : modeOfCol df i with
    | none => rw [hm] at h; exact Except.noConfusion h
    | some m => rw [hm] at h; cases h; rfl

theorem fillFrom_colNames : ∀ (l : List Nat) (df d : Dataset),
    fillFrom df l = Except.ok d → d.colNames = df.colNames
  | [], _, _, h => by cases h; rfl
  | i :: l, df, d, h => by
    unfold fillFrom at h
    cases hs : fill_step df i with
    | error e => rw [hs] at h; exact Except.noConfusion h
    | ok d1 =>
      rw [hs] at h
      exact (fillFrom_colNames l d1 d h).trans (fill_step_colNames hs)

/-- C8: the cleaning stages after missingness pruning — outlier removal,
consistency checks and (when it succeeds) imputation — return a dataset
with exactly the columns of their input; only rows may shrink. -/
theorem cleaning_stages_preserve_colNames (df : Dataset) :
    (remove_outliers df).colNames = df.colNames ∧
    (check_inconsistencies df).colNames = df.colNames ∧
    ∀ d2 : Dataset, fill_missing_values df = Except.ok d2 → d2.colNames = df.colNames := by
  refine ⟨rfl, ?_, ?_⟩
  · exact energyFold_colNames energy_columns { df with rows := dedupFirst df.rows }
  · intro d2 h
    exact fillFrom_colNames (List.range df.colNames.length) df d2 h

/-- Witness for C8: imputation on a concrete column succeeds and keeps the
column set. -/
theorem cleaning_stages_preserve_colNames_witness :
    ∃ d : Dataset, fill_missing_values exDfFill = Except.ok d ∧
      d.colNames = exDfFill.colNames := by
  refine ⟨{ colNames := ["X"], colTypes := [DType.float64],
            rows := [[some (Value.num 1)], [some (Value.num 2)], [some (Value.num 3)]] },
    ?_, ?_⟩
  · with_unfolding_all decide
  · exact (cleaning_stages_preserve_colNames exDfFill).2.2 _ (by with_unfolding_all decide)

/-- C5: schema validation succeeds exactly when the symmetric difference of
the expected and actual column-name sets is empty, and a failure carries the
missing (expected but absent) and extra (present but unexpected) sets; on
schema `{A,B,C}` versus columns `{A,B,D}` it reports `missing={C}` and
`extra={D}`. -/
theorem validate_columns_spec :
    (∀ e a : List String, validate_dataframe_columns e a =
      if e.toFinset \ a.toFinset = ∅ ∧ a.toFinset \ e.toFinset = ∅ then Except.ok ()
      else Except.error
        (PyErr.schemaMismatch (e.toFinset \ a.toFinset) (a.toFinset \ e.toFinset))) ∧
    validate_dataframe_columns ["A", "B", "C"] ["A", "B", "D"]
      = Except.error (PyErr.schemaMismatch {"C"} {"D"}) := by
  constructor
  · intro e a
    unfold validate_dataframe_columns
    by_cases h1 : e.toFinset \ a.toFinset = ∅ <;>
      by_cases h2 : a.toFinset \ e.toFinset = ∅ <;>
      simp [h1, h2]
  · with_unfolding_all decide

/-- C3 (code bug): on a column with no present value the code does not fail
with any error naming the column: a numeric all-missing column is returned
unchanged — `fillna(median)` with a NaN median leaves every value missing —
and a categorical all-missing column raises a bare `KeyError` from the
`mode()[0]` lookup (the code has no `ImputationImpossible` error at all). -/
theorem imputation_empty_column_behavior :
    fill_missing_values exDf3 = Except.ok exDf3 ∧
    exDf3.rows = [[none], [none]] ∧
    fill_missing_values exDf3b = Except.error PyErr.keyError := by
  refine ⟨?_, rfl, ?_⟩
  · with_unfolding_all decide
  · with_unfolding_all decide

theorem check_of_mem {archive : List (List Nat)} {b : List Nat} (hb : b ∈ archive) :
    check_if_file_processed archive b = true := by
  unfold check_if_file_processed
  exact List.any_eq_true.mpr ⟨b, hb, by simp⟩

/-- C2 counterexample: at a concrete input whose bytes are already archived,
the run does raise the duplicate error — but only after the input file has
been renamed, refuting "aborts before any mutation: no rename ... occurs". -/
theorem duplicate_input_rename_counterexample :
    (data_pipeline inpDup initWorld).2 = Except.error PyErr.duplicateInput ∧
    (data_pipeline inpDup initWorld).1.renamed = true := by
  constructor
  · with_unfolding_all decide
  · with_unfolding_all decide

/-- C2 (amended): for every supported-format input whose content is already
present in the archive, the run raises the duplicate-input error and aborts
before any store or snapshot write — but the input file has already been
timestamp-renamed before the duplicate check, so that mutation does occur. -/
theorem duplicate_input_aborts (inp : PipeInput) (w : World)
    (hext : inp.extOk = true) (hdup : inp.fileBytes ∈ inp.archiveFiles) :
    (data_pipeline inp w).2 = Except.error PyErr.duplicateInput ∧
    (data_pipeline inp w).1.storeWritten = w.storeWritten ∧
    (data_pipeline inp w).1.snapshotWritten = w.snapshotWritten ∧
    (data_pipeline inp w).1.renamed = true := by
  have hchk := check_of_mem hdup
  simp [data_pipeline, ingest_data, hext, hchk]

/-- Witness for C2: the concrete duplicate run from an initial world. -/
theorem duplicate_input_aborts_witness :
    (data_pipeline inpDup initWorld).2 = Except.error PyErr.duplicateInput ∧
    (data_pipeline inpDup initWorld).1.storeWritten = initWorld.storeWritten ∧
    (data_pipeline inpDup initWorld).1.snapshotWritten = initWorld.snapshotWritten ∧
    (data_pipeline inpDup initWorld).1.renamed = true :=
  duplicate_input_aborts inpDup initWorld rfl (by with_unfolding_all decide)

/-- C7: the fingerprint is a function of the file bytes alone — hashing the
same content yields the same digest, whatever the path or name of the file
(the same path twice is the special case `p1 = p2`). -/
theorem md5_hash_content_only (fs : FileSys) (p1 p2 : String) (h : fs p1 = fs p2) :
    md5_hash fs p1 = md5_hash fs p2 := by
  unfold md5_hash
  rw [h]

/-- Witness for C7: identical bytes under two different names hash alike. -/
theorem md5_hash_content_only_witness :
    md5_hash exFs "input.csv" = md5_hash exFs "archive/input.csv" :=
  md5_hash_content_only exFs "input.csv" "archive/input.csv" (by with_unfolding_all decide)

/-- C10: `archive_file` never raises: it always returns `None` (on success
as well as on failure), and whenever its body raises — source file missing
is not even a raise, and a failing directory creation or move is — the
handler catches the exception and turns it into a `None` return. -/
theorem archive_file_never_raises :
    (∀ s m v : Bool, ∀ w : World, (archive_file s m v w).2 = none) ∧
    (∀ s m v : Bool, ∀ w : World, ∀ e : PyErr,
      (archiveBody s m v w).2 = Except.error e →
      archive_file s m v w = ((archiveBody s m v w).1, none)) := by
  constructor
  · intro s m v w
    cases s <;> cases m <;> cases v <;> rfl
  · intro s m v w e he
    cases s <;> cases m <;> cases v <;> simp_all [archive_file, archiveBody]

/-- Witness for C10: a failing directory creation is caught and the call
still returns `None`. -/
theorem archive_file_never_raises_witness :
    archive_file true true false initWorld = ((archiveBody true true false initWorld).1, none) :=
  archive_file_never_raises.2 true true false initWorld PyErr.osError
    (by with_unfolding_all decide)

end Powerbox
